import Mathlib

/-!
Verification development for the py4cytoscape client library.

The library's implementation modules are not part of this tree; only their
documentation, reference pages and release notes are.  Every definition
below is therefore modelled from the specification's own words (see the
doc comment of each definition), and the theorems settle the spec's
testable properties against those models.
-/

set_option maxRecDepth 4000

/-! ## Identifier resolver (py4cytoscape_utils)

The spec's Identifier Resolver translates user-supplied node or edge names
to the application's numeric SUIDs by building a name-to-identifier table
once per call from the application's current table snapshot.
-/

/-- Modelled from the spec: one row of the application's table snapshot for
a network's nodes or edges, pairing the application's numeric identifier
(SUID) with the element's user-visible name.  The implementation module
`py4cytoscape_utils` is missing from the tree. -/
structure TableRow where
  suid : Nat
  name : String
deriving DecidableEq, Repr

/-- Modelled from the spec: the table snapshot fetched once per resolution
call from the application's table API. -/
abbrev TableSnapshot := List TableRow

/-- Modelled from the spec's error taxonomy: a "not found" error is a
distinct error kind from the ambiguity error raised for duplicate
matches. -/
inductive ResolverError where
  | notFound (name : String)
  | ambiguity (name : String)
deriving DecidableEq, Repr

/-- All SUIDs of rows carrying a given name, in snapshot order. -/
def matchingSuids (t : TableSnapshot) (n : String) : List Nat :=
  (t.filter (fun r => r.name == n)).map TableRow.suid

/-- Modelled from the spec: resolve one name against the snapshot by name
lookup.  No match raises "not found"; a unique match yields its SUID;
several matches yield all matching SUIDs when the caller opted into
duplicates (`unique_list`) and an ambiguity error otherwise. -/
def resolveName (t : TableSnapshot) (unique_list : Bool) (n : String) :
    Except ResolverError (List Nat) :=
  match matchingSuids t n with
  | [] => .error (.notFound n)
  | [s] => .ok [s]
  | ss => if unique_list then .ok ss else .error (.ambiguity n)

/-- Modelled from the spec: resolve one SUID back to the name of the row
that carries it. -/
def resolveSuid (t : TableSnapshot) (s : Nat) : Except ResolverError String :=
  match t.filter (fun r => r.suid == s) with
  | [] => .error (.notFound (toString s))
  | r :: _ => .ok r.name

/-- Modelled from the spec: resolve a list of names left to right, failing
on the first name that fails; zero names resolve to the empty result. -/
def name_to_suid (t : TableSnapshot) (names : List String) (unique_list : Bool) :
    Except ResolverError (List (List Nat)) :=
  match names with
  | [] => .ok []
  | n :: ns =>
    match resolveName t unique_list n with
    | .error e => .error e
    | .ok s =>
      match name_to_suid t ns unique_list with
      | .error e => .error e
      | .ok rest => .ok (s :: rest)

/-- Modelled from the spec: resolve a list of SUIDs back to names, left to
right, failing on the first SUID that fails. -/
def suid_to_name (t : TableSnapshot) (suids : List Nat) :
    Except ResolverError (List String) :=
  match suids with
  | [] => .ok []
  | s :: ss =>
    match resolveSuid t s with
    | .error e => .error e
    | .ok n =>
      match suid_to_name t ss with
      | .error e => .error e
      | .ok rest => .ok (n :: rest)

/-- Modelled from the spec: `node_name_to_node_suid` of
`py4cytoscape_utils`, applied to the node-table snapshot. -/
def node_name_to_node_suid (t : TableSnapshot) (names : List String)
    (unique_list : Bool) : Except ResolverError (List (List Nat)) :=
  name_to_suid t names unique_list

/-- Modelled from the spec: `edge_name_to_edge_suid` of
`py4cytoscape_utils`, applied to the edge-table snapshot. -/
def edge_name_to_edge_suid (t : TableSnapshot) (names : List String)
    (unique_list : Bool) : Except ResolverError (List (List Nat)) :=
  name_to_suid t names unique_list

/-- Modelled from the spec: `node_suid_to_node_name` of
`py4cytoscape_utils`. -/
def node_suid_to_node_name (t : TableSnapshot) (suids : List Nat) :
    Except ResolverError (List String) :=
  suid_to_name t suids

/-- Modelled from the spec: `edge_suid_to_edge_name` of
`py4cytoscape_utils`. -/
def edge_suid_to_edge_name (t : TableSnapshot) (suids : List Nat) :
    Except ResolverError (List String) :=
  suid_to_name t suids

/-- The round trip of the spec's first testable property: names to SUIDs
(duplicates not allowed), then the obtained SUIDs back to names. -/
def nodeRoundTrip (t : TableSnapshot) (names : List String) :
    Except ResolverError (List String) :=
  match node_name_to_node_suid t names false with
  | .error e => .error e
  | .ok rss => node_suid_to_node_name t rss.flatten

/-- Edge version of the round trip. -/
def edgeRoundTrip (t : TableSnapshot) (names : List String) :
    Except ResolverError (List String) :=
  match edge_name_to_edge_suid t names false with
  | .error e => .error e
  | .ok rss => edge_suid_to_edge_name t rss.flatten

example : matchingSuids [⟨1, "A"⟩, ⟨2, "B"⟩, ⟨3, "A"⟩] "A" = [1, 3] := by decide

example : nodeRoundTrip [⟨1, "A"⟩, ⟨2, "B"⟩] ["B", "A"] = .ok ["B", "A"] := by rfl

/-- In a snapshot whose SUIDs are pairwise distinct, filtering by the SUID
of a member row returns exactly that row. -/
lemma filter_suid_eq_singleton (t : TableSnapshot)
    (hnd : (t.map TableRow.suid).Nodup) (r : TableRow) (hr : r ∈ t) :
    t.filter (fun row => row.suid == r.suid) = [r] := by
  induction t with
  | nil => cases hr
  | cons a t ih =>
    simp only [List.map_cons, List.nodup_cons] at hnd
    rcases List.mem_cons.mp hr with h | h
    · subst h
      have hnil : t.filter (fun row => row.suid == r.suid) = [] := by
        refine List.filter_eq_nil_iff.mpr ?_
        intro row hrow hb
        rw [beq_iff_eq] at hb
        exact hnd.1 (hb ▸ List.mem_map_of_mem TableRow.suid hrow)
      simp [List.filter_cons, hnil]
    · have hne : (a.suid == r.suid) = false := by
        rw [beq_eq_false_iff_ne]
        intro hab
        exact hnd.1 (hab ▸ List.mem_map_of_mem TableRow.suid h)
      simp only [List.filter_cons, hne]
      exact ih hnd.2 h

/-- A name resolving to a single SUID comes from a member row with that
name and that SUID. -/
lemma matchingSuids_singleton (t : TableSnapshot) (n : String) (s : Nat)
    (h : matchingSuids t n = [s]) :
    ∃ r, r ∈ t ∧ r.name = n ∧ r.suid = s := by
  unfold matchingSuids at h
  cases hf : t.filter (fun r => r.name == n) with
  | nil => rw [hf] at h; cases h
  | cons r tail =>
    rw [hf] at h
    simp only [List.map_cons] at h
    injection h with h1 _
    have hmem := List.mem_filter.mp (hf ▸ List.mem_cons_self r tail)
    exact ⟨r, hmem.1, beq_iff_eq.mp hmem.2, h1⟩

/-- With pairwise-distinct SUIDs, resolving back the unique SUID of a name
returns that name. -/
lemma resolveSuid_of_unique (t : TableSnapshot)
    (hnd : (t.map TableRow.suid).Nodup) (n : String) (s : Nat)
    (h : matchingSuids t n = [s]) :
    resolveSuid t s = .ok n := by
  obtain ⟨r, hrt, hrn, hrs⟩ := matchingSuids_singleton t n s h
  have hf := filter_suid_eq_singleton t hnd r hrt
  rw [hrs] at hf
  unfold resolveSuid
  rw [hf]
  exact congrArg Except.ok hrn

/-- Resolving a name with a unique match returns its SUID, whatever the
`unique_list` option. -/
lemma resolveName_of_unique (t : TableSnapshot) (u : Bool) (n : String)
    (s : Nat) (h : matchingSuids t n = [s]) :
    resolveName t u n = .ok [s] := by
  unfold resolveName
  rw [h]

/-- Core of the round trip: when every requested name matches exactly one
row and the snapshot's SUIDs are pairwise distinct, name resolution
succeeds and resolving the obtained SUIDs back yields the original
names. -/
lemma name_to_suid_then_back (t : TableSnapshot) (names : List String)
    (hnd : (t.map TableRow.suid).Nodup)
    (huniq : ∀ n ∈ names, (matchingSuids t n).length = 1) :
    ∃ rss, name_to_suid t names false = .ok rss ∧
      suid_to_name t rss.flatten = .ok names := by
  induction names with
  | nil => exact ⟨[], rfl, rfl⟩
  | cons n ns ih =>
    obtain ⟨s, hs⟩ := List.length_eq_one.mp (huniq n (List.mem_cons_self n ns))
    obtain ⟨rss, h1, h2⟩ := ih (fun m hm => huniq m (List.mem_cons_of_mem n hm))
    refine ⟨[s] :: rss, ?_, ?_⟩
    · unfold name_to_suid
      rw [resolveName_of_unique t false n s hs, h1]
    · show suid_to_name t (s :: rss.flatten) = .ok (n :: ns)
      unfold suid_to_name
      rw [resolveSuid_of_unique t hnd n s hs, h2]

/-- C1: for every list of node or edge names whose names are unique in the
network (and the application's SUIDs being unique identifiers), resolving
the names to SUIDs and the SUIDs back to names yields the original names,
and repeating the round trip yields the same result again. -/
theorem C1_name_suid_round_trip (t : TableSnapshot) (names : List String)
    (hnd : (t.map TableRow.suid).Nodup)
    (huniq : ∀ n ∈ names, (matchingSuids t n).length = 1) :
    nodeRoundTrip t names = .ok names ∧
    edgeRoundTrip t names = .ok names ∧
    (nodeRoundTrip t names).bind (nodeRoundTrip t) = .ok names ∧
    (edgeRoundTrip t names).bind (edgeRoundTrip t) = .ok names := by
  obtain ⟨rss, h1, h2⟩ := name_to_suid_then_back t names hnd huniq
  have hnode : nodeRoundTrip t names = .ok names := by
    unfold nodeRoundTrip node_name_to_node_suid node_suid_to_node_name
    rw [h1]
    exact h2
  have hedge : edgeRoundTrip t names = .ok names := by
    unfold edgeRoundTrip edge_name_to_edge_suid edge_suid_to_edge_name
    rw [h1]
    exact h2
  refine ⟨hnode, hedge, ?_, ?_⟩
  · rw [hnode]; exact hnode
  · rw [hedge]; exact hedge

/-- C1 witness: the round trip evaluated at a concrete two-row snapshot. -/
theorem C1_name_suid_round_trip_witness :
    nodeRoundTrip [⟨11, "A"⟩, ⟨12, "B"⟩] ["B", "A"] = .ok ["B", "A"] ∧
    edgeRoundTrip [⟨11, "A"⟩, ⟨12, "B"⟩] ["B", "A"] = .ok ["B", "A"] ∧
    (nodeRoundTrip [⟨11, "A"⟩, ⟨12, "B"⟩] ["B", "A"]).bind
      (nodeRoundTrip [⟨11, "A"⟩, ⟨12, "B"⟩]) = .ok ["B", "A"] ∧
    (edgeRoundTrip [⟨11, "A"⟩, ⟨12, "B"⟩] ["B", "A"]).bind
      (edgeRoundTrip [⟨11, "A"⟩, ⟨12, "B"⟩]) = .ok ["B", "A"] :=
  C1_name_suid_round_trip [⟨11, "A"⟩, ⟨12, "B"⟩] ["B", "A"]
    (by decide) (by decide)

/-- Resolving a name carried by several rows yields all matching SUIDs
under `unique_list` and an ambiguity error otherwise. -/
lemma resolveName_of_dup (t : TableSnapshot) (n : String)
    (hdup : 2 ≤ (matchingSuids t n).length) :
    resolveName t true n = .ok (matchingSuids t n) ∧
    resolveName t false n = .error (.ambiguity n) := by
  cases hm : matchingSuids t n with
  | nil => rw [hm] at hdup; simp at hdup
  | cons a l =>
    cases l with
    | nil => rw [hm] at hdup; simp at hdup
    | cons b l2 =>
      constructor <;> simp [resolveName, hm]

/-- C5: when more than one element shares a requested name, resolution
with `unique_list` returns all matching SUIDs and resolution without it
raises an ambiguity error rather than picking one match. -/
theorem C5_duplicate_name_resolution (t : TableSnapshot) (n : String)
    (hdup : 2 ≤ (matchingSuids t n).length) :
    node_name_to_node_suid t [n] true = .ok [matchingSuids t n] ∧
    node_name_to_node_suid t [n] false = .error (.ambiguity n) ∧
    edge_name_to_edge_suid t [n] true = .ok [matchingSuids t n] ∧
    edge_name_to_edge_suid t [n] false = .error (.ambiguity n) := by
  obtain ⟨h1, h2⟩ := resolveName_of_dup t n hdup
  refine ⟨?_, ?_, ?_, ?_⟩ <;>
    simp [node_name_to_node_suid, edge_name_to_edge_suid, name_to_suid, h1, h2]

/-- C5 witness: a two-row snapshot where both rows are named "A". -/
theorem C5_duplicate_name_resolution_witness :
    2 ≤ (matchingSuids [⟨1, "A"⟩, ⟨2, "A"⟩] "A").length ∧
    (node_name_to_node_suid [⟨1, "A"⟩, ⟨2, "A"⟩] ["A"] true =
        .ok [matchingSuids [⟨1, "A"⟩, ⟨2, "A"⟩] "A"] ∧
      node_name_to_node_suid [⟨1, "A"⟩, ⟨2, "A"⟩] ["A"] false =
        .error (.ambiguity "A") ∧
      edge_name_to_edge_suid [⟨1, "A"⟩, ⟨2, "A"⟩] ["A"] true =
        .ok [matchingSuids [⟨1, "A"⟩, ⟨2, "A"⟩] "A"] ∧
      edge_name_to_edge_suid [⟨1, "A"⟩, ⟨2, "A"⟩] ["A"] false =
        .error (.ambiguity "A")) :=
  ⟨by decide, C5_duplicate_name_resolution [⟨1, "A"⟩, ⟨2, "A"⟩] "A" (by decide)⟩

/-- C6: a name is always resolved by name lookup against the snapshot:
whenever the rows named `n` are exactly one row with SUID `s`, resolution
returns `s`, whatever the digits of `n` may spell.  (The witness below
evaluates this on a snapshot where the numeric reading of the name is the
SUID of a different element.) -/
theorem C6_numeric_name_resolution (t : TableSnapshot) (n : String)
    (s : Nat) (u : Bool) (h : matchingSuids t n = [s]) :
    node_name_to_node_suid t [n] u = .ok [[s]] ∧
    edge_name_to_edge_suid t [n] u = .ok [[s]] := by
  have h1 := resolveName_of_unique t u n s h
  constructor <;>
    simp [node_name_to_node_suid, edge_name_to_edge_suid, name_to_suid, h1]

/-- C6 witness: the element named "123" has SUID 999 while a different
element has SUID 123; resolving "123" returns 999, never 123. -/
theorem C6_numeric_name_resolution_witness :
    matchingSuids [⟨123, "X"⟩, ⟨999, "123"⟩] "123" = [999] ∧
    (node_name_to_node_suid [⟨123, "X"⟩, ⟨999, "123"⟩] ["123"] false =
        .ok [[999]] ∧
      edge_name_to_edge_suid [⟨123, "X"⟩, ⟨999, "123"⟩] ["123"] false =
        .ok [[999]]) :=
  ⟨by decide,
    C6_numeric_name_resolution [⟨123, "X"⟩, ⟨999, "123"⟩] "123" 999 false
      (by decide)⟩

/-- C7: resolving an empty collection of names returns an empty result and
not an error; resolving a name that matches no element raises the "not
found" error, which is a distinct error kind from the ambiguity error. -/
theorem C7_empty_and_not_found (t : TableSnapshot) (n : String) (u : Bool)
    (hnone : matchingSuids t n = []) :
    node_name_to_node_suid t [] u = .ok [] ∧
    edge_name_to_edge_suid t [] u = .ok [] ∧
    node_name_to_node_suid t [n] u = .error (.notFound n) ∧
    edge_name_to_edge_suid t [n] u = .error (.notFound n) ∧
    (∀ a b : String, ResolverError.notFound a ≠ ResolverError.ambiguity b) := by
  have h1 : resolveName t u n = .error (.notFound n) := by
    simp [resolveName, hnone]
  refine ⟨rfl, rfl, ?_, ?_, ?_⟩
  · simp [node_name_to_node_suid, name_to_suid, h1]
  · simp [edge_name_to_edge_suid, name_to_suid, h1]
  · intro a b hab
    cases hab

/-- C7 witness: the one-row snapshot and the absent name "Z". -/
theorem C7_empty_and_not_found_witness :
    matchingSuids [⟨1, "A"⟩] "Z" = [] ∧
    (node_name_to_node_suid [⟨1, "A"⟩] [] false = .ok [] ∧
      edge_name_to_edge_suid [⟨1, "A"⟩] [] false = .ok [] ∧
      node_name_to_node_suid [⟨1, "A"⟩] ["Z"] false =
        .error (.notFound "Z") ∧
      edge_name_to_edge_suid [⟨1, "A"⟩] ["Z"] false =
        .error (.notFound "Z") ∧
      (∀ a b : String, ResolverError.notFound a ≠ ResolverError.ambiguity b)) :=
  ⟨by decide, C7_empty_and_not_found [⟨1, "A"⟩] "Z" false (by decide)⟩

/-! ## Sandbox relay (py4cytoscape_sandbox / sandbox.py)

The sandbox module itself is missing from the tree; the model below
follows the spec's Sandbox Relay contract: named directories under the
application's file-transfer root, a process-wide "current sandbox"
pointer, and path validation that rejects absolute paths and traversal
sequences before any transfer is attempted.
-/

/-- Split the characters of a path at `/` or `\` separators. -/
def splitPathAux : List Char → List Char → List (List Char)
  | [], acc => [acc.reverse]
  | c :: cs, acc =>
    if c == '/' || c == '\\' then acc.reverse :: splitPathAux cs []
    else splitPathAux cs (c :: acc)

/-- The separator-delimited components of a path. -/
def pathComponents (p : String) : List (List Char) :=
  splitPathAux p.data []

/-- Modelled from the spec: a path is absolute when it starts at a root
separator or at a drive letter followed by a colon. -/
def isAbsolutePath (p : String) : Bool :=
  match p.data with
  | [] => false
  | c :: rest =>
    c == '/' || c == '\\' ||
      (match rest with
       | c2 :: _ => c2 == ':'
       | [] => false)

/-- Modelled from the spec: a path contains a traversal sequence when one
of its components is `..`. -/
def hasTraversal (p : String) : Bool :=
  (pathComponents p).contains ['.', '.']

/-- A sandbox path is valid when it is neither absolute nor contains a
traversal sequence. -/
def validSandboxPath (p : String) : Bool :=
  !(isAbsolutePath p || hasTraversal p)

example : isAbsolutePath "/etc/passwd" = true := by decide
example : hasTraversal "../up.txt" = true := by decide
example : hasTraversal "a/../up.txt" = true := by decide
example : validSandboxPath "data/file.csv" = true := by decide

/-- Modelled from the spec's error taxonomy: sandbox errors — an absolute
or traversal path, a nonexistent sandbox, or a failed transfer. -/
inductive SandboxError where
  | invalidPath (p : String)
  | noSuchSandbox (nm : String)
  | noSuchFile (p : String)
deriving DecidableEq, Repr

/-- One file stored in a sandbox: its relative path and its bytes. -/
structure FileEntry where
  path : String
  content : List Nat
deriving DecidableEq, Repr

/-- Modelled from the spec: a sandbox is a named directory holding files
under the application's file-transfer root. -/
structure Sandbox where
  sbName : String
  files : List FileEntry
deriving DecidableEq, Repr

/-- Modelled from the spec: the process-wide sandbox state — the existing
sandboxes and the "current sandbox" pointer. -/
structure SandboxState where
  sandboxes : List Sandbox
  current : Option String
deriving DecidableEq, Repr

/-- Modelled from the spec: the sample-data files a sandbox is optionally
pre-seeded with at creation. -/
def sampleFiles : List FileEntry :=
  [⟨"sampleData/galFiltered.sif", [103, 97, 108]⟩]

/-- Look a sandbox up by name. -/
def findSandbox (st : SandboxState) (nm : String) : Option Sandbox :=
  st.sandboxes.find? (fun sb => sb.sbName == nm)

/-- Write (create or overwrite) a file inside a sandbox's file list. -/
def writeFile (files : List FileEntry) (p : String) (content : List Nat) :
    List FileEntry :=
  ⟨p, content⟩ :: files.filter (fun f => !(f.path == p))

/-- Modelled from the spec: `sandbox_set(name, copy_samples, reinitialize)`
creates the named directory under the file-transfer root if absent; if
`reinitialize` is true it clears existing contents first (re-seeding
samples when `copy_samples` is set); it then makes the named sandbox
current.  The sandbox name, being a relative path, is validated like any
sandbox path. -/
def sandbox_set (st : SandboxState) (nm : String)
    (copy_samples reinitialize : Bool) : Except SandboxError SandboxState :=
  if validSandboxPath nm = false then .error (.invalidPath nm)
  else
    let initialFiles := if copy_samples then sampleFiles else []
    let sandboxes :=
      match findSandbox st nm with
      | none => st.sandboxes ++ [⟨nm, initialFiles⟩]
      | some _ =>
        if reinitialize then
          st.sandboxes.map
            (fun sb => if sb.sbName == nm then ⟨nm, initialFiles⟩ else sb)
        else st.sandboxes
    .ok ⟨sandboxes, some nm⟩

/-- Modelled from the spec: an operation given no explicit sandbox name
applies to the process-wide current sandbox. -/
def effectiveSandbox (st : SandboxState) (explicit : Option String) :
    Option String :=
  match explicit with
  | some nm => some nm
  | none => st.current

/-- The transfer a sandbox operation performed: which sandbox (none means
the application's native working directory) and which relative path. -/
structure Transfer where
  sandbox : Option String
  path : String
deriving DecidableEq, Repr

/-- Modelled from the spec: `sandbox_send_to` streams bytes from the
caller's file system to a file under the current (or named) sandbox,
after validating the sandbox path. -/
def sandbox_send_to (st : SandboxState) (explicit : Option String)
    (sandboxPath : String) (content : List Nat) :
    Except SandboxError (SandboxState × Transfer) :=
  if validSandboxPath sandboxPath = false then
    .error (.invalidPath sandboxPath)
  else
    let tgt := effectiveSandbox st explicit
    let sandboxes :=
      match tgt with
      | none => st.sandboxes
      | some nm =>
        st.sandboxes.map (fun sb =>
          if sb.sbName == nm then
            ⟨sb.sbName, writeFile sb.files sandboxPath content⟩
          else sb)
    .ok (⟨sandboxes, st.current⟩, ⟨tgt, sandboxPath⟩)

/-- Modelled from the spec: `sandbox_get_from` is the inverse transfer,
reading a sandbox file out to the caller, after validating the sandbox
path. -/
def sandbox_get_from (st : SandboxState) (explicit : Option String)
    (sandboxPath : String) : Except SandboxError (SandboxState × Transfer) :=
  if validSandboxPath sandboxPath = false then
    .error (.invalidPath sandboxPath)
  else
    .ok (st, ⟨effectiveSandbox st explicit, sandboxPath⟩)

/-- Modelled from the spec: `sandbox_url_to` fetches a resource from a
network URL directly into the sandbox, after validating the sandbox
path. -/
def sandbox_url_to (st : SandboxState) (explicit : Option String)
    (url : String) (sandboxPath : String) (content : List Nat) :
    Except SandboxError (SandboxState × Transfer) :=
  if validSandboxPath sandboxPath = false then
    .error (.invalidPath sandboxPath)
  else
    let tgt := effectiveSandbox st explicit
    let sandboxes :=
      match tgt with
      | none => st.sandboxes
      | some nm =>
        st.sandboxes.map (fun sb =>
          if sb.sbName == nm then
            ⟨sb.sbName, writeFile sb.files sandboxPath content⟩
          else sb)
    .ok (⟨sandboxes, st.current⟩, ⟨tgt, sandboxPath⟩)

/-- Modelled from the spec: `sandbox_remove_file` removes a sandbox file,
after validating the sandbox path. -/
def sandbox_remove_file (st : SandboxState) (explicit : Option String)
    (sandboxPath : String) : Except SandboxError (SandboxState × Transfer) :=
  if validSandboxPath sandboxPath = false then
    .error (.invalidPath sandboxPath)
  else
    let tgt := effectiveSandbox st explicit
    let sandboxes :=
      match tgt with
      | none => st.sandboxes
      | some nm =>
        st.sandboxes.map (fun sb =>
          if sb.sbName == nm then
            ⟨sb.sbName, sb.files.filter (fun f => !(f.path == sandboxPath))⟩
          else sb)
    .ok (⟨sandboxes, st.current⟩, ⟨tgt, sandboxPath⟩)

/-- Modelled from the spec: `sandbox_get_file_info` returns sandbox file
metadata, after validating the sandbox path. -/
def sandbox_get_file_info (st : SandboxState) (explicit : Option String)
    (sandboxPath : String) : Except SandboxError (SandboxState × Transfer) :=
  if validSandboxPath sandboxPath = false then
    .error (.invalidPath sandboxPath)
  else
    .ok (st, ⟨effectiveSandbox st explicit, sandboxPath⟩)

/-- C2: every sandbox operation given an absolute path or a path with a
traversal sequence rejects it with a sandbox error; no transfer result is
produced, so the transfer branch is unreachable for such paths. -/
theorem C2_sandbox_path_rejection (st : SandboxState) (ex : Option String)
    (url p : String) (content : List Nat) (cs reinit : Bool)
    (hbad : (isAbsolutePath p || hasTraversal p) = true) :
    sandbox_set st p cs reinit = .error (.invalidPath p) ∧
    sandbox_send_to st ex p content = .error (.invalidPath p) ∧
    sandbox_get_from st ex p = .error (.invalidPath p) ∧
    sandbox_url_to st ex url p content = .error (.invalidPath p) ∧
    sandbox_remove_file st ex p = .error (.invalidPath p) ∧
    sandbox_get_file_info st ex p = .error (.invalidPath p) := by
  have hv : validSandboxPath p = false := by
    rw [validSandboxPath, hbad]
    rfl
  refine ⟨?_, ?_, ?_, ?_, ?_, ?_⟩ <;>
    simp [sandbox_set, sandbox_send_to, sandbox_get_from, sandbox_url_to,
      sandbox_remove_file, sandbox_get_file_info, hv]

/-- C2 witness: the traversal path `../up.txt` is rejected by all six
operations on a concrete state. -/
theorem C2_sandbox_path_rejection_witness :
    (isAbsolutePath "../up.txt" || hasTraversal "../up.txt") = true ∧
    (sandbox_set ⟨[], none⟩ "../up.txt" true true =
        .error (.invalidPath "../up.txt") ∧
      sandbox_send_to ⟨[], none⟩ none "../up.txt" [1] =
        .error (.invalidPath "../up.txt") ∧
      sandbox_get_from ⟨[], none⟩ none "../up.txt" =
        .error (.invalidPath "../up.txt") ∧
      sandbox_url_to ⟨[], none⟩ none "http://x/y" "../up.txt" [1] =
        .error (.invalidPath "../up.txt") ∧
      sandbox_remove_file ⟨[], none⟩ none "../up.txt" =
        .error (.invalidPath "../up.txt") ∧
      sandbox_get_file_info ⟨[], none⟩ none "../up.txt" =
        .error (.invalidPath "../up.txt")) :=
  ⟨by decide,
    C2_sandbox_path_rejection ⟨[], none⟩ none "http://x/y" "../up.txt" [1]
      true true (by decide)⟩

/-- Replacing the sandbox named `nm` in a list that contains one makes
`find?` by that name return the replacement. -/
lemma find_replace_sandbox (l : List Sandbox) (nm : String) (repl : Sandbox)
    (hr : (repl.sbName == nm) = true)
    (hmem : ∃ sb ∈ l, (sb.sbName == nm) = true) :
    (l.map (fun sb => if sb.sbName == nm then repl else sb)).find?
      (fun sb => sb.sbName == nm) = some repl := by
  induction l with
  | nil =>
    obtain ⟨sb, hsb, _⟩ := hmem
    cases hsb
  | cons a l ih =>
    by_cases ha : (a.sbName == nm) = true
    · simp only [List.map_cons, if_pos ha]
      exact List.find?_cons_of_pos _ hr
    · simp only [List.map_cons, if_neg ha]
      rw [List.find?_cons_of_neg _ (by simpa using ha)]
      refine ih ?_
      obtain ⟨sb, hsb, hn⟩ := hmem
      rcases List.mem_cons.mp hsb with rfl | hsb2
      · exact absurd hn ha
      · exact ⟨sb, hsb2, hn⟩

/-- C3: on an existing sandbox, `sandbox_set` with `reinitialize=False`
leaves every sandbox's contents unchanged and only moves the
current-sandbox pointer, while `reinitialize=True` (the default) empties
the named sandbox's contents (other sandboxes unchanged) before making it
current. -/
theorem C3_sandbox_set_reinitialize (st : SandboxState) (nm : String)
    (sb : Sandbox) (cs : Bool)
    (hvalid : validSandboxPath nm = true)
    (hex : findSandbox st nm = some sb) :
    (sandbox_set st nm cs false = .ok ⟨st.sandboxes, some nm⟩) ∧
    (∃ st2, sandbox_set st nm false true = .ok st2 ∧
      findSandbox st2 nm = some ⟨nm, []⟩ ∧
      st2.current = some nm ∧
      ∀ other ∈ st2.sandboxes, other.sbName ≠ nm → other ∈ st.sandboxes) := by
  have hv : (validSandboxPath nm = false) = False := by
    simp [hvalid]
  constructor
  · simp [sandbox_set, hv, hex]
  · refine ⟨⟨st.sandboxes.map
      (fun s => if s.sbName == nm then ⟨nm, []⟩ else s), some nm⟩, ?_, ?_, rfl, ?_⟩
    · simp [sandbox_set, hv, hex]
    · have hex2 : st.sandboxes.find? (fun s => s.sbName == nm) = some sb := hex
      have hmem : ∃ s ∈ st.sandboxes, (s.sbName == nm) = true :=
        ⟨sb, List.mem_of_find?_eq_some hex2, by
          have hp := List.find?_some hex2
          simpa using hp⟩
      exact find_replace_sandbox st.sandboxes nm ⟨nm, []⟩ (by simp) hmem
    · intro other hother hne
      obtain ⟨pre, hpre, heq⟩ := List.mem_map.mp hother
      by_cases hp : (pre.sbName == nm) = true
      · rw [if_pos hp] at heq
        subst heq
        exact absurd rfl hne
      · rw [if_neg hp] at heq
        subst heq
        exact hpre

/-- C3 witness: a state holding one sandbox `s1` with one file. -/
theorem C3_sandbox_set_reinitialize_witness :
    validSandboxPath "s1" = true ∧
    findSandbox ⟨[⟨"s1", [⟨"f.txt", [7]⟩]⟩], none⟩ "s1" =
      some ⟨"s1", [⟨"f.txt", [7]⟩]⟩ ∧
    ((sandbox_set ⟨[⟨"s1", [⟨"f.txt", [7]⟩]⟩], none⟩ "s1" true false =
        .ok ⟨[⟨"s1", [⟨"f.txt", [7]⟩]⟩], some "s1"⟩) ∧
      (∃ st2, sandbox_set ⟨[⟨"s1", [⟨"f.txt", [7]⟩]⟩], none⟩ "s1" false true =
          .ok st2 ∧
        findSandbox st2 "s1" = some ⟨"s1", []⟩ ∧
        st2.current = some "s1" ∧
        ∀ other ∈ st2.sandboxes, other.sbName ≠ "s1" →
          other ∈ SandboxState.sandboxes ⟨[⟨"s1", [⟨"f.txt", [7]⟩]⟩], none⟩)) :=
  ⟨by decide, by decide,
    C3_sandbox_set_reinitialize ⟨[⟨"s1", [⟨"f.txt", [7]⟩]⟩], none⟩ "s1"
      ⟨"s1", [⟨"f.txt", [7]⟩]⟩ true (by decide) (by decide)⟩

/-- Modelled from the spec: the name of the automatically provisioned
sandbox in a remote-notebook execution environment. -/
def default_sandbox_name : String := "default_sandbox"

/-- Modelled from the spec: the initial sandbox state.  In a
remote-notebook execution environment the default sandbox is
automatically provisioned (pre-seeded with sample data) and made current;
otherwise there is no sandbox and no current pointer. -/
def initialSandboxState (remoteNotebook : Bool) : SandboxState :=
  if remoteNotebook then
    ⟨[⟨default_sandbox_name, sampleFiles⟩], some default_sandbox_name⟩
  else ⟨[], none⟩

/-- The sandbox operations, for reasoning about operation sequences. -/
inductive SbOp where
  | setCur (nm : String) (cs reinit : Bool)
  | sendTo (explicit : Option String) (p : String) (content : List Nat)
  | getFrom (explicit : Option String) (p : String)
  | urlTo (explicit : Option String) (url p : String) (content : List Nat)
  | removeFile (explicit : Option String) (p : String)
  | fileInfo (explicit : Option String) (p : String)
deriving DecidableEq, Repr

/-- Run one sandbox operation; a rejected operation leaves the state
unchanged. -/
def applyOp (st : SandboxState) : SbOp → SandboxState
  | .setCur nm cs reinit =>
    match sandbox_set st nm cs reinit with
    | .ok st1 => st1
    | .error _ => st
  | .sendTo ex p c =>
    match sandbox_send_to st ex p c with
    | .ok r => r.fst
    | .error _ => st
  | .getFrom ex p =>
    match sandbox_get_from st ex p with
    | .ok r => r.fst
    | .error _ => st
  | .urlTo ex url p c =>
    match sandbox_url_to st ex url p c with
    | .ok r => r.fst
    | .error _ => st
  | .removeFile ex p =>
    match sandbox_remove_file st ex p with
    | .ok r => r.fst
    | .error _ => st
  | .fileInfo ex p =>
    match sandbox_get_file_info st ex p with
    | .ok r => r.fst
    | .error _ => st

/-- Run a sequence of sandbox operations. -/
def applyOps (st : SandboxState) (ops : List SbOp) : SandboxState :=
  ops.foldl applyOp st

/-- Whether an operation is a `sandbox_set` call. -/
def isSetCur : SbOp → Bool
  | .setCur _ _ _ => true
  | _ => false

/-- Every operation other than `sandbox_set` leaves the current-sandbox
pointer unchanged. -/
lemma applyOp_current (st : SandboxState) (op : SbOp)
    (h : isSetCur op = false) : (applyOp st op).current = st.current := by
  cases op with
  | setCur nm cs reinit => simp [isSetCur] at h
  | sendTo ex p c =>
    simp only [applyOp, sandbox_send_to]
    by_cases hv : validSandboxPath p = false <;> simp [hv]
  | getFrom ex p =>
    simp only [applyOp, sandbox_get_from]
    by_cases hv : validSandboxPath p = false <;> simp [hv]
  | urlTo ex url p c =>
    simp only [applyOp, sandbox_url_to]
    by_cases hv : validSandboxPath p = false <;> simp [hv]
  | removeFile ex p =>
    simp only [applyOp, sandbox_remove_file]
    by_cases hv : validSandboxPath p = false <;> simp [hv]
  | fileInfo ex p =>
    simp only [applyOp, sandbox_get_file_info]
    by_cases hv : validSandboxPath p = false <;> simp [hv]

/-- A sequence free of `sandbox_set` calls leaves the current-sandbox
pointer unchanged. -/
lemma applyOps_current (st : SandboxState) (ops : List SbOp)
    (h : ∀ op ∈ ops, isSetCur op = false) :
    (applyOps st ops).current = st.current := by
  induction ops generalizing st with
  | nil => rfl
  | cons op ops ih =>
    have h1 : applyOps st (op :: ops) = applyOps (applyOp st op) ops := rfl
    rw [h1, ih (applyOp st op) (fun o ho => h o (List.mem_cons_of_mem op ho))]
    exact applyOp_current st op (h op (List.mem_cons_self op ops))

/-- C10: a sandbox operation called without an explicit sandbox name
applies to the process-wide current sandbox; in a remote-notebook
environment the automatically provisioned `default_sandbox` is current;
and the current pointer is unchanged by any sequence of operations that
contains no `sandbox_set` call. -/
theorem C10_current_sandbox_pointer (st : SandboxState) (ops : List SbOp)
    (cur url p : String) (c : List Nat)
    (hnoset : ∀ op ∈ ops, isSetCur op = false)
    (hcur : st.current = some cur) :
    (initialSandboxState true).current = some default_sandbox_name ∧
    findSandbox (initialSandboxState true) default_sandbox_name =
      some ⟨default_sandbox_name, sampleFiles⟩ ∧
    (applyOps st ops).current = st.current ∧
    effectiveSandbox st none = some cur ∧
    sandbox_send_to st none p c = sandbox_send_to st (some cur) p c ∧
    sandbox_get_from st none p = sandbox_get_from st (some cur) p ∧
    sandbox_url_to st none url p c = sandbox_url_to st (some cur) url p c ∧
    sandbox_remove_file st none p = sandbox_remove_file st (some cur) p ∧
    sandbox_get_file_info st none p = sandbox_get_file_info st (some cur) p := by
  refine ⟨rfl, rfl, applyOps_current st ops hnoset, ?_, ?_, ?_, ?_, ?_, ?_⟩ <;>
    simp [effectiveSandbox, sandbox_send_to, sandbox_get_from, sandbox_url_to,
      sandbox_remove_file, sandbox_get_file_info, hcur]

/-- C10 witness: a state whose current sandbox is `s1` and a short
`sandbox_set`-free operation sequence. -/
theorem C10_current_sandbox_pointer_witness :
    (∀ op ∈ [SbOp.sendTo none "a.txt" [1], SbOp.fileInfo none "a.txt"],
      isSetCur op = false) ∧
    SandboxState.current ⟨[⟨"s1", []⟩], some "s1"⟩ = some "s1" ∧
    ((initialSandboxState true).current = some default_sandbox_name ∧
      findSandbox (initialSandboxState true) default_sandbox_name =
        some ⟨default_sandbox_name, sampleFiles⟩ ∧
      (applyOps ⟨[⟨"s1", []⟩], some "s1"⟩
          [SbOp.sendTo none "a.txt" [1], SbOp.fileInfo none "a.txt"]).current =
        SandboxState.current ⟨[⟨"s1", []⟩], some "s1"⟩ ∧
      effectiveSandbox ⟨[⟨"s1", []⟩], some "s1"⟩ none = some "s1" ∧
      sandbox_send_to ⟨[⟨"s1", []⟩], some "s1"⟩ none "b.txt" [2] =
        sandbox_send_to ⟨[⟨"s1", []⟩], some "s1"⟩ (some "s1") "b.txt" [2] ∧
      sandbox_get_from ⟨[⟨"s1", []⟩], some "s1"⟩ none "b.txt" =
        sandbox_get_from ⟨[⟨"s1", []⟩], some "s1"⟩ (some "s1") "b.txt" ∧
      sandbox_url_to ⟨[⟨"s1", []⟩], some "s1"⟩ none "http://x/y" "b.txt" [2] =
        sandbox_url_to ⟨[⟨"s1", []⟩], some "s1"⟩ (some "s1") "http://x/y"
          "b.txt" [2] ∧
      sandbox_remove_file ⟨[⟨"s1", []⟩], some "s1"⟩ none "b.txt" =
        sandbox_remove_file ⟨[⟨"s1", []⟩], some "s1"⟩ (some "s1") "b.txt" ∧
      sandbox_get_file_info ⟨[⟨"s1", []⟩], some "s1"⟩ none "b.txt" =
        sandbox_get_file_info ⟨[⟨"s1", []⟩], some "s1"⟩ (some "s1") "b.txt") :=
  ⟨by decide, rfl,
    C10_current_sandbox_pointer ⟨[⟨"s1", []⟩], some "s1"⟩
      [SbOp.sendTo none "a.txt" [1], SbOp.fileInfo none "a.txt"]
      "s1" "http://x/y" "b.txt" [2] (by decide) rfl⟩

/-! ## Color parameter normalization (style settings / py4cytoscape_utils)

The style-setting modules are missing from the tree.  The model follows
the spec's Request Shaper contract: color-valued parameters accept either
symbolic color names or hex strings, normalizing to the hex form the
application requires, and an unrecognized symbolic name is rejected
locally before any network request is issued.
-/

/-- Whether a character is a hexadecimal digit. -/
def isHexDigitChar (c : Char) : Bool :=
  c.isDigit || ('a' ≤ c && c ≤ 'f') || ('A' ≤ c && c ≤ 'F')

/-- Modelled from the spec: `is_not_hex_color` of `py4cytoscape_utils` —
true when the string is not of the form `#RRGGBB`. -/
def is_not_hex_color (c : String) : Bool :=
  match c.data with
  | '#' :: rest => !(rest.length == 6 && rest.all isHexDigitChar)
  | _ => true

example : is_not_hex_color "#FF0000" = false := by decide
example : is_not_hex_color "red" = true := by decide

/-- Modelled from the spec: the table of recognized symbolic color names
and the hex strings the application requires (a representative subset of
the CSS color names the library recognizes). -/
def colorNameTable : List (String × String) :=
  [("red", "#FF0000"), ("green", "#008000"), ("blue", "#0000FF"),
   ("black", "#000000"), ("white", "#FFFFFF"), ("yellow", "#FFFF00"),
   ("purple", "#800080"), ("orange", "#FFA500"), ("gray", "#808080")]

/-- The outcome of supplying a color-valued parameter: either a request
whose body carries the normalized hex string is issued, or the call is
rejected locally and no request is issued. -/
inductive ColorOutcome where
  | requested (body : String)
  | localError (badName : String)
deriving DecidableEq, Repr

/-- Modelled from the spec: normalize a color-valued parameter.  A hex
string goes into the request body as is; a recognized symbolic name is
replaced by its hex form; an unrecognized symbolic name raises a local
validation error before any network request is issued. -/
def normalize_color (c : String) : ColorOutcome :=
  if is_not_hex_color c then
    match colorNameTable.find? (fun e => e.fst == c) with
    | some e => .requested e.snd
    | none => .localError c
  else .requested c

example : normalize_color "red" = .requested "#FF0000" := by decide
example : normalize_color "blurple" = .localError "blurple" := by decide

/-- C4: a recognized symbolic color name puts the corresponding hex string
into the request body, and an unrecognized symbolic name raises a local
validation error, so no request is issued for it. -/
theorem C4_color_normalization (good bad hex : String)
    (hg1 : is_not_hex_color good = true)
    (hg2 : colorNameTable.find? (fun e => e.fst == good) = some (good, hex))
    (hb1 : is_not_hex_color bad = true)
    (hb2 : colorNameTable.find? (fun e => e.fst == bad) = none) :
    normalize_color good = .requested hex ∧
    normalize_color bad = .localError bad ∧
    ∀ body, normalize_color bad ≠ .requested body := by
  refine ⟨?_, ?_, ?_⟩
  · simp [normalize_color, hg1, hg2]
  · simp [normalize_color, hb1, hb2]
  · intro body hreq
    rw [normalize_color, if_pos hb1, hb2] at hreq
    cases hreq

/-- C4 witness: the recognized name "red" and the unrecognized name
"blurple". -/
theorem C4_color_normalization_witness :
    (is_not_hex_color "red" = true ∧
      colorNameTable.find? (fun e => e.fst == "red") = some ("red", "#FF0000") ∧
      is_not_hex_color "blurple" = true ∧
      colorNameTable.find? (fun e => e.fst == "blurple") = none) ∧
    (normalize_color "red" = .requested "#FF0000" ∧
      normalize_color "blurple" = .localError "blurple" ∧
      ∀ body, normalize_color "blurple" ≠ .requested body) :=
  ⟨⟨by decide, by decide, by decide, by decide⟩,
    C4_color_normalization "red" "blurple" "#FF0000"
      (by decide) (by decide) (by decide) (by decide)⟩

/-! ## Connection retry with exponential backoff (py4cytoscape_networks /
py4cytoscape commands layer)

The HTTP layer is missing from the tree.  The model follows the spec's
Retry/Stabilization section: for network-unreachable conditions at
session-start-sensitive calls the client performs bounded
exponential-backoff retries before surfacing a connection error.
-/

/-- The outcome of the connection loop: connected after some number of
attempts, or a connection error after exhausting the attempts. -/
inductive ConnOutcome where
  | connected (attemptsUsed : Nat)
  | connectionError (attemptsUsed : Nat)
deriving DecidableEq, Repr

/-- Modelled from the spec: attempt to connect up to `attemptsLeft` times;
after each failure wait the current delay and double it (exponential
backoff); when the attempts are exhausted surface a connection error.
Returns the outcome together with the list of waits performed.  `connect`
abstracts the transport: it tells whether the numbered attempt reaches
the application. -/
def retryWithBackoff (connect : Nat → Bool) :
    Nat → Nat → Nat → ConnOutcome × List Nat
  | 0, _, attemptsMade => (.connectionError attemptsMade, [])
  | Nat.succ k, delay, attemptsMade =>
    if connect attemptsMade then (.connected (attemptsMade + 1), [])
    else
      let r := retryWithBackoff connect k (delay * 2) (attemptsMade + 1)
      (r.fst, delay :: r.snd)

/-- An unreachable base URL: no attempt ever connects. -/
def unreachableConnect : Nat → Bool := fun _ => false

example :
    retryWithBackoff unreachableConnect 3 2 0 =
      (.connectionError 3, [2, 4, 8]) := by decide

/-- C8: against an unreachable base URL the client performs exactly the
configured number of attempts with exponentially growing waits and then
terminates with a connection error — never an unbounded retry (the wait
list has exactly `n` entries, the i-th being `d * 2 ^ i`). -/
theorem C8_bounded_exponential_backoff (n d a : Nat) :
    (retryWithBackoff unreachableConnect n d a).fst =
      .connectionError (a + n) ∧
    (retryWithBackoff unreachableConnect n d a).snd =
      (List.range n).map (fun i => d * 2 ^ i) := by
  induction n generalizing d a with
  | zero => exact ⟨rfl, rfl⟩
  | succ k ih =>
    obtain ⟨ih1, ih2⟩ := ih (d * 2) (a + 1)
    constructor
    · show (retryWithBackoff unreachableConnect k (d * 2) (a + 1)).fst =
        .connectionError (a + (k + 1))
      rw [ih1]
      have : a + 1 + k = a + (k + 1) := by omega
      rw [this]
    · show d :: (retryWithBackoff unreachableConnect k (d * 2) (a + 1)).snd =
        (List.range (k + 1)).map (fun i => d * 2 ^ i)
      rw [ih2, List.range_succ_eq_map, List.map_cons, List.map_map]
      congr 1
      · simp
      · apply List.map_congr_left
        intro i _
        simp [Function.comp, pow_succ]
        ring

/-! ## Response normalizer (py4cytoscape commands layer)

The commands module is missing from the tree.  The model follows the
spec's Response Normalizer contract: a success payload is returned as a
language-native structure; a non-2xx status raises an error carrying the
HTTP status and the application's error payload verbatim, including whole
per-item error lists.
-/

/-- Modelled from the spec: the application's response payload — tabular
rows, a scalar, or a per-item error list (e.g., some nodes not found). -/
inductive Payload where
  | scalar (s : String)
  | rows (rs : List (List String))
  | errorList (errs : List String)
deriving DecidableEq, Repr

/-- An HTTP response: status code and payload. -/
structure HttpResponse where
  status : Nat
  payload : Payload
deriving DecidableEq, Repr

/-- Whether an HTTP status is a success status. -/
def is2xx (s : Nat) : Bool := 200 ≤ s && s < 300

/-- Modelled from the spec: the application error raised for a non-2xx
response, carrying the HTTP status code and the error payload as the
application sent it. -/
inductive CyError where
  | requestError (status : Nat) (payload : Payload)
deriving DecidableEq, Repr

/-- Modelled from the spec: the response normalizer.  On a 2xx status the
payload is handed back as the language-native structure; on any other
status it raises an error carrying the status code and the payload
verbatim. -/
def normalizeResponse (r : HttpResponse) : Except CyError Payload :=
  if is2xx r.status then .ok r.payload
  else .error (.requestError r.status r.payload)

example :
    normalizeResponse ⟨200, .scalar "3"⟩ = .ok (.scalar "3") := by rfl

/-- C9: every non-2xx response is raised as an error carrying the exact
status code and the exact payload; in particular a per-item error list is
surfaced whole, never truncated. -/
theorem C9_error_payload_verbatim (r : HttpResponse)
    (h : is2xx r.status = false) :
    normalizeResponse r = .error (.requestError r.status r.payload) ∧
    ∀ errs, r.payload = .errorList errs →
      normalizeResponse r = .error (.requestError r.status (.errorList errs)) := by
  constructor
  · simp [normalizeResponse, h]
  · intro errs herrs
    simp [normalizeResponse, h, herrs]

/-- C9 witness: a 404 response carrying a two-item error list is raised
with the status and the whole list. -/
theorem C9_error_payload_verbatim_witness :
    is2xx 404 = false ∧
    (normalizeResponse ⟨404, .errorList ["node A not found", "node B not found"]⟩ =
        .error (.requestError 404
          (.errorList ["node A not found", "node B not found"])) ∧
      ∀ errs,
        Payload.errorList ["node A not found", "node B not found"] =
          .errorList errs →
        normalizeResponse
            ⟨404, .errorList ["node A not found", "node B not found"]⟩ =
          .error (.requestError 404 (.errorList errs))) :=
  ⟨by decide,
    C9_error_payload_verbatim
      ⟨404, .errorList ["node A not found", "node B not found"]⟩ (by decide)⟩
